import Mathlib

/-!
Shallow embedding of the seasonal dataset generator of
`streamlit_solar_dashboard.py`.

Numeric values are modelled as rationals; Python's `round(x, 2)` is modelled
as exact rounding to the nearest multiple of 1/100 with ties to even.
Randomness is modelled by an explicit stream `Sampler : ℕ → ℚ` of unit draws:
the call `np.random.uniform(low, high)` consuming the `k`-th draw `u` returns
`low + (high - low) * u` (numpy performs no validation of `low ≤ high`), and
each generated row consumes exactly five consecutive draws.
Python dictionaries become association lists (insertion ordered, as in
Python 3.7+); a failed key lookup becomes the `keyError` value, and a call to
the unassigned local `calc_func` becomes the `nameError` value.
-/

namespace Solar

/-- Nearest-integer rounding with ties to even, as Python's built-in round. -/
def rnd2Int (q : ℚ) : ℤ :=
  if q - q.floor < 1/2 then q.floor
  else if 1/2 < q - q.floor then q.floor + 1
  else if q.floor % 2 = 0 then q.floor else q.floor + 1

/-- Python's round(x, 2): rounding to two decimal places. -/
def round2 (q : ℚ) : ℚ := (rnd2Int (100 * q) : ℚ) / 100

/-- Summer yield formula (source lines 100-105). -/
def calc_kwh_summer (irradiance humidity wind_speed ambient_temp tilt_angle : ℚ) : ℚ :=
  0.25 * irradiance - 0.05 * humidity + 0.02 * wind_speed
    + 0.1 * ambient_temp - 0.03 * |tilt_angle - 30|

/-- Monsoon yield formula (source lines 107-112). -/
def calc_kwh_monsoon (irradiance humidity wind_speed ambient_temp tilt_angle : ℚ) : ℚ :=
  0.15 * irradiance - 0.1 * humidity + 0.01 * wind_speed
    + 0.05 * ambient_temp - 0.04 * |tilt_angle - 30|

/-- Winter yield formula (source lines 114-119). -/
def calc_kwh_winter (irradiance humidity wind_speed ambient_temp tilt_angle : ℚ) : ℚ :=
  0.18 * irradiance - 0.03 * humidity + 0.015 * wind_speed
    + 0.08 * ambient_temp - 0.02 * |tilt_angle - 30|

/-- Per-season (min, max) sampling bounds for the five features. -/
structure FeatureRanges where
  irradiance : ℚ × ℚ
  humidity : ℚ × ℚ
  wind_speed : ℚ × ℚ
  ambient_temperature : ℚ × ℚ
  tilt_angle : ℚ × ℚ
deriving DecidableEq

/-- One synthetic record appended by the generator (source lines 146-155). -/
structure Observation where
  irradiance : ℚ
  humidity : ℚ
  wind_speed : ℚ
  ambient_temperature : ℚ
  tilt_angle : ℚ
  kwh : ℚ
  season : String
  month : String
deriving DecidableEq

/-- Summer entry of the `feature_ranges` dictionary (source lines 55-61). -/
def summerRanges : FeatureRanges := ⟨(600, 1000), (10, 50), (0, 5), (30, 45), (10, 40)⟩

/-- Monsoon entry of the `feature_ranges` dictionary (source lines 62-68). -/
def monsoonRanges : FeatureRanges := ⟨(100, 600), (70, 100), (2, 8), (20, 35), (10, 40)⟩

/-- Winter entry of the `feature_ranges` dictionary (source lines 69-75). -/
def winterRanges : FeatureRanges := ⟨(300, 700), (30, 70), (1, 6), (5, 20), (10, 40)⟩

/-- The module-level `feature_ranges` dictionary (source lines 54-76). -/
def feature_ranges : List (String × FeatureRanges) :=
  [("summer", summerRanges), ("monsoon", monsoonRanges), ("winter", winterRanges)]

/-- Summer entry of `season_months_days` (source lines 80-85). -/
def summerCal : List (String × Int) :=
  [("March", 31), ("April", 30), ("May", 31), ("June", 30)]

/-- Monsoon entry of `season_months_days` (source lines 86-91). -/
def monsoonCal : List (String × Int) :=
  [("July", 31), ("August", 31), ("September", 30), ("October", 31)]

/-- Winter entry of `season_months_days` (source lines 92-97). -/
def winterCal : List (String × Int) :=
  [("November", 30), ("December", 31), ("January", 31), ("February", 28)]

/-- The module-level `season_months_days` dictionary (source lines 79-98). -/
def season_months_days : List (String × List (String × Int)) :=
  [("summer", summerCal), ("monsoon", monsoonCal), ("winter", winterCal)]

/-- Python runtime errors the generator can raise: a dictionary KeyError, or the
NameError/UnboundLocalError from calling the never-assigned `calc_func`. -/
inductive Err where
  | keyError (key : String)
  | nameError (ident : String)
deriving DecidableEq

/-- A stream of unit-interval random draws standing for the global numpy RNG. -/
abbrev Sampler := ℕ → ℚ

/-- Type of the three `calc_kwh_*` scoring functions. -/
abbrev CalcFn := ℚ → ℚ → ℚ → ℚ → ℚ → ℚ

/-- np.random.uniform(low, high) consuming the k-th draw: low + (high-low)*u
with u ∈ [0,1).  numpy performs no low ≤ high validation. -/
def uniform (s : Sampler) (k : ℕ) (p : ℚ × ℚ) : ℚ := p.1 + (p.2 - p.1) * s k

/-- The `if/elif` chain selecting the scoring function (source lines 129-134);
`none` models the chain falling through with `calc_func` left unassigned. -/
def selectCalc (season : String) : Option CalcFn :=
  if season = "summer" then some calc_kwh_summer
  else if season = "monsoon" then some calc_kwh_monsoon
  else if season = "winter" then some calc_kwh_winter
  else none

/-- One loop body iteration (source lines 138-155): five uniform draws at
stream positions k..k+4, kwh computed from the RAW draws, every numeric field
rounded to two decimals at append time. -/
def mkRow (f : CalcFn) (season month : String) (r : FeatureRanges)
    (s : Sampler) (k : ℕ) : Observation :=
  let irr := uniform s k r.irradiance
  let hum := uniform s (k + 1) r.humidity
  let wind := uniform s (k + 2) r.wind_speed
  let temp := uniform s (k + 3) r.ambient_temperature
  let tilt := uniform s (k + 4) r.tilt_angle
  { irradiance := round2 irr, humidity := round2 hum, wind_speed := round2 wind,
    ambient_temperature := round2 temp, tilt_angle := round2 tilt,
    kwh := round2 (f irr hum wind temp tilt), season := season, month := month }

/-- The inner `for _ in range(days)` loop (source lines 137-155).  A day count
of `d` iterations; if `calc_func` was never assigned the first iteration fails
at the call site, after which no row is emitted. -/
def genDays (cf : Option CalcFn) (season month : String) (r : FeatureRanges)
    (s : Sampler) (k : ℕ) : ℕ → Except Err (List Observation)
  | 0 => .ok []
  | d + 1 =>
    match cf with
    | none => .error (.nameError "calc_func")
    | some f => do
      let rest ← genDays cf season month r s (k + 5) d
      .ok (mkRow f season month r s k :: rest)

/-- The outer `for month, days in season_months.items()` loop (source line 136).
`range(days)` on a negative int yields nothing, hence `Int.toNat`. -/
def genMonths (cf : Option CalcFn) (season : String) (r : FeatureRanges)
    (s : Sampler) (k : ℕ) : List (String × Int) → Except Err (List Observation)
  | [] => .ok []
  | (m, d) :: rest => do
    let rows ← genDays cf season m r s k d.toNat
    let more ← genMonths cf season r s (k + 5 * d.toNat) rest
    .ok (rows ++ more)

/-- `generate_seasonal_data(season, feature_ranges, months_days)` (source lines
122-157).  `k` is the RNG stream position at entry.  The two dictionary
lookups of lines 125-126 happen first and raise KeyError on a missing key. -/
def generate_seasonal_data (season : String)
    (fr : List (String × FeatureRanges))
    (md : List (String × List (String × Int)))
    (s : Sampler) (k : ℕ) : Except Err (List Observation) :=
  match fr.lookup season with
  | none => .error (.keyError season)
  | some season_ranges =>
    match md.lookup season with
    | none => .error (.keyError season)
    | some season_months =>
      genMonths (selectCalc season) season season_ranges s k season_months

/-- `generate_all_seasons_data()` (source lines 160-170): summer, monsoon,
winter in that fixed order, sharing the single global RNG stream (each row
consumes exactly five draws), results concatenated. -/
def generate_all_seasons_data (s : Sampler) : Except Err (List Observation) := do
  let su ← generate_seasonal_data "summer" feature_ranges season_months_days s 0
  let mo ← generate_seasonal_data "monsoon" feature_ranges season_months_days s
    (5 * su.length)
  let wi ← generate_seasonal_data "winter" feature_ranges season_months_days s
    (5 * (su.length + mo.length))
  .ok (su ++ mo ++ wi)

/-- Closed form of the rows produced by the month/day loops: for each calendar
entry, one row per day, row number `i` of a block starting at stream position
`k` built from draws `k + 5*i .. k + 5*i + 4`. -/
def mkRows (f : CalcFn) (season : String) (r : FeatureRanges) (s : Sampler) :
    ℕ → List (String × Int) → List Observation
  | _, [] => []
  | k, (m, d) :: rest =>
    ((List.range d.toNat).map fun i => mkRow f season m r s (k + 5 * i))
      ++ mkRows f season r s (k + 5 * d.toNat) rest

/-- Total number of loop iterations a calendar table produces. -/
def calendarLen : List (String × Int) → ℕ
  | [] => 0
  | (_, d) :: rest => d.toNat + calendarLen rest

/-- Contract of the unit random source: every draw lies in [0, 1). -/
def UnitSampler (s : Sampler) : Prop := ∀ k, 0 ≤ s k ∧ s k < 1

/-- All five declared ranges of a season satisfy min ≤ max. -/
def ValidRanges (r : FeatureRanges) : Prop :=
  r.irradiance.1 ≤ r.irradiance.2 ∧ r.humidity.1 ≤ r.humidity.2 ∧
  r.wind_speed.1 ≤ r.wind_speed.2 ∧
  r.ambient_temperature.1 ≤ r.ambient_temperature.2 ∧
  r.tilt_angle.1 ≤ r.tilt_angle.2

/-- x lies within the closed range p up to the ±0.01 rounding tolerance. -/
def WithinTol (p : ℚ × ℚ) (x : ℚ) : Prop := p.1 - 1/100 ≤ x ∧ x ≤ p.2 + 1/100

/-- A summer range table whose irradiance range has min > max. -/
def invertedRanges : FeatureRanges := ⟨(1000, 600), (10, 50), (0, 5), (30, 45), (10, 40)⟩

/-- A range dictionary carrying the inverted summer ranges. -/
def invertedFR : List (String × FeatureRanges) := [("summer", invertedRanges)]

/-- A one-month, one-day calendar dictionary for concrete runs. -/
def marchOnly : List (String × List (String × Int)) := [("summer", [("March", 1)])]

/-- The all-zero draw stream. -/
def zeroSampler : Sampler := fun _ => 0

/-- The constant one-half draw stream. -/
def halfSampler : Sampler := fun _ => 1/2

/-- Draw stream putting irradiance at 600.059 and tilt at exactly 30. -/
def c1sampler : Sampler := fun k =>
  if k = 0 then 59/400000 else if k = 4 then 2/3 else 0

/-- Draw stream putting irradiance at 600.139 and tilt at exactly 30. -/
def c2sampler : Sampler := fun k =>
  if k = 0 then 139/400000 else if k = 4 then 2/3 else 0

/-- The single row the generator emits on `c1sampler`. -/
def c1row : Observation :=
  ⟨30003/50, 10, 0, 30, 30, 15251/100, "summer", "March"⟩

/-- The single row the generator emits on `c2sampler`. -/
def c2row : Observation :=
  ⟨30007/50, 10, 0, 30, 30, 15253/100, "summer", "March"⟩

/-- The single row the generator emits on `zeroSampler` with inverted ranges. -/
def c3row : Observation :=
  ⟨1000, 10, 0, 30, 10, 2519/10, "summer", "March"⟩

end Solar

namespace Solar

lemma ratFloor_eq_intFloor (q : ℚ) : q.floor = ⌊q⌋ :=
  (Rat.floor_def' q).trans Rat.floor_def.symm

lemma rnd2Int_abs (x : ℚ) : |(rnd2Int x : ℚ) - x| ≤ 1/2 := by
  have h1 : (⌊x⌋ : ℚ) ≤ x := Int.floor_le x
  have h2 : x < ⌊x⌋ + 1 := Int.lt_floor_add_one x
  unfold rnd2Int
  rw [ratFloor_eq_intFloor]
  split_ifs with ha hb hc
  · rw [abs_le]
    constructor <;> linarith
  · push_cast
    rw [abs_le]
    constructor <;> linarith
  · have he : x - ⌊x⌋ = 1/2 := le_antisymm (not_lt.mp hb) (not_lt.mp ha)
    rw [abs_le]
    constructor <;> linarith
  · have he : x - ⌊x⌋ = 1/2 := le_antisymm (not_lt.mp hb) (not_lt.mp ha)
    push_cast
    rw [abs_le]
    constructor <;> linarith

lemma round2_sub_abs (q : ℚ) : |round2 q - q| ≤ 1/200 := by
  have h := rnd2Int_abs (100 * q)
  unfold round2
  have hq : (rnd2Int (100 * q) : ℚ) / 100 - q
      = ((rnd2Int (100 * q) : ℚ) - 100 * q) / 100 := by ring
  rw [hq, abs_div]
  have h100 : |(100 : ℚ)| = 100 := by norm_num
  rw [h100]
  linarith

lemma round2_within {lo hi x : ℚ} (hl : lo ≤ x) (hr : x ≤ hi) :
    lo - 1/100 ≤ round2 x ∧ round2 x ≤ hi + 1/100 := by
  have h := round2_sub_abs x
  rw [abs_le] at h
  constructor <;> linarith [h.1, h.2]

lemma round2_eval_lt (q : ℚ) (n : ℤ) (hf : ⌊100 * q⌋ = n) (h : 100 * q - n < 1/2) :
    round2 q = (n : ℚ) / 100 := by
  unfold round2 rnd2Int
  rw [ratFloor_eq_intFloor, hf, if_pos h]

lemma round2_eval_gt (q : ℚ) (n : ℤ) (hf : ⌊100 * q⌋ = n) (h : 1/2 < 100 * q - n) :
    round2 q = ((n : ℚ) + 1) / 100 := by
  unfold round2 rnd2Int
  rw [ratFloor_eq_intFloor, hf, if_neg (by linarith), if_pos h]
  push_cast
  ring

lemma round2_eval_tie_odd (q : ℚ) (n : ℤ) (hf : ⌊100 * q⌋ = n)
    (h : 100 * q - n = 1/2) (ho : n % 2 = 1) : round2 q = ((n : ℚ) + 1) / 100 := by
  unfold round2 rnd2Int
  rw [ratFloor_eq_intFloor, hf, if_neg (by linarith), if_neg (by linarith),
    if_neg (by omega)]
  push_cast
  ring

lemma uniform_bounds {s : Sampler} {k : ℕ} (h0 : 0 ≤ s k) (h1 : s k < 1)
    {p : ℚ × ℚ} (hp : p.1 ≤ p.2) : p.1 ≤ uniform s k p ∧ uniform s k p ≤ p.2 := by
  unfold uniform
  constructor
  · nlinarith
  · nlinarith

lemma genDays_some (f : CalcFn) (season month : String) (r : FeatureRanges)
    (s : Sampler) (d : ℕ) : ∀ k, genDays (some f) season month r s k d =
      .ok ((List.range d).map fun i => mkRow f season month r s (k + 5 * i)) := by
  induction d with
  | zero => intro k; rfl
  | succ d ih =>
    intro k
    have hfun : ((fun i => mkRow f season month r s (k + 5 * i)) ∘ Nat.succ)
        = fun i => mkRow f season month r s (k + 5 + 5 * i) := by
      funext i
      simp only [Function.comp_apply]
      congr 1
      omega
    simp only [genDays, ih (k + 5), List.range_succ_eq_map, List.map_cons,
      List.map_map, hfun]
    show Except.ok _ = Except.ok _
    congr 2

lemma genMonths_some (f : CalcFn) (season : String) (r : FeatureRanges)
    (s : Sampler) (months : List (String × Int)) : ∀ k,
    genMonths (some f) season r s k months = .ok (mkRows f season r s k months) := by
  induction months with
  | nil => intro k; rfl
  | cons p rest ih =>
    intro k
    obtain ⟨m, d⟩ := p
    simp only [genMonths, genDays_some, ih, mkRows]
    rfl

lemma mkRows_length (f : CalcFn) (season : String) (r : FeatureRanges)
    (s : Sampler) (months : List (String × Int)) : ∀ k,
    (mkRows f season r s k months).length = calendarLen months := by
  induction months with
  | nil => intro k; rfl
  | cons p rest ih =>
    intro k
    obtain ⟨m, d⟩ := p
    simp [mkRows, calendarLen, ih]

lemma mkRow_month (f : CalcFn) (season month : String) (r : FeatureRanges)
    (s : Sampler) (k : ℕ) : (mkRow f season month r s k).month = month := rfl

lemma mkRow_season (f : CalcFn) (season month : String) (r : FeatureRanges)
    (s : Sampler) (k : ℕ) : (mkRow f season month r s k).season = season := rfl

lemma mkRows_month_labels (f : CalcFn) (season : String) (r : FeatureRanges)
    (s : Sampler) (months : List (String × Int)) : ∀ k,
    (mkRows f season r s k months).map (fun o => o.month)
      = (months.map fun p => List.replicate p.2.toNat p.1).flatten := by
  induction months with
  | nil => intro k; rfl
  | cons p rest ih =>
    intro k
    obtain ⟨m, d⟩ := p
    simp [mkRows, ih, List.map_map, Function.comp_def, mkRow_month,
      List.map_const']

lemma mkRows_season_labels (f : CalcFn) (season : String) (r : FeatureRanges)
    (s : Sampler) (months : List (String × Int)) : ∀ k,
    (mkRows f season r s k months).map (fun o => o.season)
      = List.replicate (calendarLen months) season := by
  induction months with
  | nil => intro k; rfl
  | cons p rest ih =>
    intro k
    obtain ⟨m, d⟩ := p
    have hconst : ((fun o : Observation => o.season)
        ∘ fun i => mkRow f season m r s (k + 5 * i)) = fun _ => season := rfl
    simp only [mkRows, List.map_append, List.map_map, hconst, ih, calendarLen,
      List.replicate_add]
    congr 1
    rw [List.map_const', List.length_range]

lemma mkRows_append (f : CalcFn) (season : String) (r : FeatureRanges)
    (s : Sampler) (xs : List (String × Int)) : ∀ (ys : List (String × Int)) k,
    mkRows f season r s k (xs ++ ys)
      = mkRows f season r s k xs ++ mkRows f season r s (k + 5 * calendarLen xs) ys := by
  induction xs with
  | nil => intro ys k; simp [mkRows, calendarLen]
  | cons p rest ih =>
    intro ys k
    obtain ⟨m, d⟩ := p
    have harg : k + 5 * d.toNat + 5 * calendarLen rest
        = k + 5 * (d.toNat + calendarLen rest) := by omega
    simp only [List.cons_append, mkRows, List.append_eq, ih, calendarLen,
      List.append_assoc, harg]

lemma calendarLen_append (xs ys : List (String × Int)) :
    calendarLen (xs ++ ys) = calendarLen xs + calendarLen ys := by
  induction xs with
  | nil => simp [calendarLen]
  | cons p rest ih =>
    obtain ⟨m, d⟩ := p
    simp [calendarLen, ih]
    omega

lemma calendarLen_sum {months : List (String × Int)} (hd : ∀ p ∈ months, 0 ≤ p.2) :
    (calendarLen months : ℤ) = (months.map (fun p => p.2)).sum := by
  induction months with
  | nil => rfl
  | cons p rest ih =>
    obtain ⟨m, d⟩ := p
    simp only [calendarLen, List.map_cons, List.sum_cons]
    push_cast
    rw [Int.toNat_of_nonneg (hd (m, d) (by simp))]
    rw [ih (fun q hq => hd q (by simp [hq]))]

lemma mkRows_getElem (f : CalcFn) (season : String) (r : FeatureRanges)
    (s : Sampler) (months : List (String × Int)) : ∀ k i
    (h : i < (mkRows f season r s k months).length),
    (mkRows f season r s k months)[i]
      = mkRow f season ((mkRows f season r s k months)[i]).month r s (k + 5 * i) := by
  induction months with
  | nil => intro k i h; simp [mkRows] at h
  | cons p rest ih =>
    intro k i h
    obtain ⟨m, d⟩ := p
    by_cases hi : i < d.toNat
    · have hlen : i < ((List.range d.toNat).map
          fun j => mkRow f season m r s (k + 5 * j)).length := by
        simpa using hi
      simp only [mkRows]
      rw [List.getElem_append_left hlen, List.getElem_map]
      simp [List.getElem_range, mkRow_month]
    · have hge : ((List.range d.toNat).map
          fun j => mkRow f season m r s (k + 5 * j)).length ≤ i := by
        simpa using Nat.le_of_not_lt hi
      have h2 : i - d.toNat < (mkRows f season r s (k + 5 * d.toNat) rest).length := by
        have := h
        simp [mkRows, List.length_append] at this
        simp [mkRows_length] at this ⊢
        omega
      simp only [mkRows]
      rw [List.getElem_append_right hge]
      have := ih (k + 5 * d.toNat) (i - d.toNat) (by simpa using h2)
      simp only [List.length_map, List.length_range] at this ⊢
      rw [this]
      congr 1
      omega

lemma mem_mkRows {obs : Observation} (f : CalcFn) (season : String)
    (r : FeatureRanges) (s : Sampler) (months : List (String × Int)) : ∀ k,
    obs ∈ mkRows f season r s k months → ∃ m j, obs = mkRow f season m r s j := by
  induction months with
  | nil => intro k h; simp [mkRows] at h
  | cons p rest ih =>
    intro k h
    obtain ⟨m, d⟩ := p
    rw [mkRows, List.mem_append] at h
    rcases h with h | h
    · obtain ⟨i, _, hob⟩ := List.mem_map.mp h
      exact ⟨m, k + 5 * i, hob.symm⟩
    · exact ih _ h

lemma generate_ok {season : String} {f : CalcFn} {r : FeatureRanges}
    {months : List (String × Int)} {fr : List (String × FeatureRanges)}
    {md : List (String × List (String × Int))}
    (hsel : selectCalc season = some f)
    (hfr : fr.lookup season = some r) (hmd : md.lookup season = some months)
    (s : Sampler) (k : ℕ) :
    generate_seasonal_data season fr md s k = .ok (mkRows f season r s k months) := by
  simp only [generate_seasonal_data, hfr, hmd, hsel, genMonths_some]

lemma generate_single {season : String} {f : CalcFn} {r : FeatureRanges}
    {fr : List (String × FeatureRanges)} {md : List (String × List (String × Int))}
    {m : String} (hsel : selectCalc season = some f)
    (hfr : fr.lookup season = some r) (hmd : md.lookup season = some [(m, 1)])
    (s : Sampler) :
    generate_seasonal_data season fr md s 0 = .ok [mkRow f season m r s 0] := by
  rw [generate_ok hsel hfr hmd]
  rfl

lemma mkRow_within {s : Sampler} (hs : UnitSampler s) {r : FeatureRanges}
    (hr : ValidRanges r) (f : CalcFn) (season month : String) (k : ℕ) :
    WithinTol r.irradiance (mkRow f season month r s k).irradiance ∧
    WithinTol r.humidity (mkRow f season month r s k).humidity ∧
    WithinTol r.wind_speed (mkRow f season month r s k).wind_speed ∧
    WithinTol r.ambient_temperature (mkRow f season month r s k).ambient_temperature ∧
    WithinTol r.tilt_angle (mkRow f season month r s k).tilt_angle := by
  obtain ⟨h1, h2, h3, h4, h5⟩ := hr
  refine ⟨?_, ?_, ?_, ?_, ?_⟩
  · have hb := uniform_bounds (hs k).1 (hs k).2 h1
    exact round2_within hb.1 hb.2
  · have hb := uniform_bounds (hs (k + 1)).1 (hs (k + 1)).2 h2
    exact round2_within hb.1 hb.2
  · have hb := uniform_bounds (hs (k + 2)).1 (hs (k + 2)).2 h3
    exact round2_within hb.1 hb.2
  · have hb := uniform_bounds (hs (k + 3)).1 (hs (k + 3)).2 h4
    exact round2_within hb.1 hb.2
  · have hb := uniform_bounds (hs (k + 4)).1 (hs (k + 4)).2 h5
    exact round2_within hb.1 hb.2

lemma c1row_eq : mkRow calc_kwh_summer "summer" "March" summerRanges c1sampler 0
    = c1row := by
  unfold mkRow uniform c1sampler summerRanges c1row calc_kwh_summer
  simp only [Observation.mk.injEq]
  refine ⟨?_, ?_, ?_, ?_, ?_, ?_, trivial, trivial⟩
  · norm_num
    rw [round2_eval_gt (600059/1000) 60005 (by norm_num) (by norm_num)]
    norm_num
  · norm_num
    rw [round2_eval_lt 10 1000 (by norm_num) (by norm_num)]
    norm_num
  · norm_num
    rw [round2_eval_lt 0 0 (by norm_num) (by norm_num)]
    norm_num
  · norm_num
    rw [round2_eval_lt 30 3000 (by norm_num) (by norm_num)]
    norm_num
  · norm_num
    rw [round2_eval_lt 30 3000 (by norm_num) (by norm_num)]
    norm_num
  · norm_num
    rw [round2_eval_lt (610059/4000) 15251 (by norm_num) (by norm_num)]
    norm_num

lemma c2row_eq : mkRow calc_kwh_summer "summer" "March" summerRanges c2sampler 0
    = c2row := by
  unfold mkRow uniform c2sampler summerRanges c2row calc_kwh_summer
  simp only [Observation.mk.injEq]
  refine ⟨?_, ?_, ?_, ?_, ?_, ?_, trivial, trivial⟩
  · norm_num
    rw [round2_eval_gt (600139/1000) 60013 (by norm_num) (by norm_num)]
    norm_num
  · norm_num
    rw [round2_eval_lt 10 1000 (by norm_num) (by norm_num)]
    norm_num
  · norm_num
    rw [round2_eval_lt 0 0 (by norm_num) (by norm_num)]
    norm_num
  · norm_num
    rw [round2_eval_lt 30 3000 (by norm_num) (by norm_num)]
    norm_num
  · norm_num
    rw [round2_eval_lt 30 3000 (by norm_num) (by norm_num)]
    norm_num
  · norm_num
    rw [round2_eval_lt (610139/4000) 15253 (by norm_num) (by norm_num)]
    norm_num

lemma c3row_eq : mkRow calc_kwh_summer "summer" "March" invertedRanges zeroSampler 0
    = c3row := by
  unfold mkRow uniform zeroSampler invertedRanges c3row calc_kwh_summer
  simp only [Observation.mk.injEq]
  refine ⟨?_, ?_, ?_, ?_, ?_, ?_, trivial, trivial⟩
  · norm_num
    rw [round2_eval_lt 1000 100000 (by norm_num) (by norm_num)]
    norm_num
  · norm_num
    rw [round2_eval_lt 10 1000 (by norm_num) (by norm_num)]
    norm_num
  · norm_num
    rw [round2_eval_lt 0 0 (by norm_num) (by norm_num)]
    norm_num
  · norm_num
    rw [round2_eval_lt 30 3000 (by norm_num) (by norm_num)]
    norm_num
  · norm_num
    rw [round2_eval_lt 10 1000 (by norm_num) (by norm_num)]
    norm_num
  · norm_num
    rw [round2_eval_lt (2519/10) 25190 (by norm_num) (by norm_num)]
    norm_num

end Solar

namespace Solar

lemma summer_len (s : Sampler) (k : ℕ) :
    (mkRows calc_kwh_summer "summer" summerRanges s k summerCal).length = 122 := by
  rw [mkRows_length]
  rfl

lemma monsoon_len (s : Sampler) (k : ℕ) :
    (mkRows calc_kwh_monsoon "monsoon" monsoonRanges s k monsoonCal).length = 123 := by
  rw [mkRows_length]
  rfl

lemma winter_len (s : Sampler) (k : ℕ) :
    (mkRows calc_kwh_winter "winter" winterRanges s k winterCal).length = 120 := by
  rw [mkRows_length]
  rfl

lemma bind_ok {α β : Type} (a : α) (f : α → Except Err β) :
    (Except.ok a : Except Err α) >>= f = f a := rfl

lemma generate_all_eq (s : Sampler) :
    generate_all_seasons_data s = .ok (
      mkRows calc_kwh_summer "summer" summerRanges s 0 summerCal ++
      mkRows calc_kwh_monsoon "monsoon" monsoonRanges s 610 monsoonCal ++
      mkRows calc_kwh_winter "winter" winterRanges s 1225 winterCal) := by
  have hsu := @generate_ok "summer" calc_kwh_summer summerRanges summerCal
    feature_ranges season_months_days rfl rfl rfl s 0
  have hmo := @generate_ok "monsoon" calc_kwh_monsoon monsoonRanges monsoonCal
    feature_ranges season_months_days rfl rfl rfl s 610
  have hwi := @generate_ok "winter" calc_kwh_winter winterRanges winterCal
    feature_ranges season_months_days rfl rfl rfl s 1225
  show Bind.bind (generate_seasonal_data "summer" feature_ranges season_months_days s 0)
    _ = _
  rw [hsu, bind_ok]
  rw [summer_len]
  show Bind.bind (generate_seasonal_data "monsoon" feature_ranges season_months_days
    s 610) _ = _
  rw [hmo, bind_ok]
  rw [monsoon_len]
  show Bind.bind (generate_seasonal_data "winter" feature_ranges season_months_days
    s 1225) _ = _
  rw [hwi, bind_ok]

end Solar

namespace Solar

/-- C1 fails on the code: on the draw stream `c1sampler` the one summer
observation has kwh = 152.51 (the formula was applied to the raw draws before
rounding), while the summer formula applied to that observation's own stored,
rounded feature values rounds to 152.52. -/
theorem c1_counterexample :
    generate_seasonal_data "summer" feature_ranges marchOnly c1sampler 0
      = .ok [c1row] ∧
    c1row.kwh ≠ round2 (calc_kwh_summer c1row.irradiance c1row.humidity
      c1row.wind_speed c1row.ambient_temperature c1row.tilt_angle) := by
  constructor
  · rw [@generate_single "summer" calc_kwh_summer summerRanges feature_ranges
      marchOnly "March" rfl rfl rfl c1sampler, c1row_eq]
  · unfold c1row calc_kwh_summer
    norm_num
    rw [round2_eval_tie_odd (30503/200) 15251 (by norm_num) (by norm_num)
      (by norm_num)]
    norm_num

/-- C1 amended: every observation emitted by generate_seasonal_data carries
kwh equal to the season's formula applied to the observation's own five RAW
sampled values, rounded to 2 decimal places with no clamping; the stored
feature fields are the same raw values rounded to 2 decimal places. -/
theorem c1_thm {season : String} {f : CalcFn} {r : FeatureRanges}
    {months : List (String × Int)} {fr : List (String × FeatureRanges)}
    {md : List (String × List (String × Int))}
    (hsel : selectCalc season = some f) (hfr : fr.lookup season = some r)
    (hmd : md.lookup season = some months) (s : Sampler) (k : ℕ) :
    ∃ rows, generate_seasonal_data season fr md s k = .ok rows ∧
      ∀ obs ∈ rows, ∃ irr hum wind temp tilt : ℚ,
        obs.irradiance = round2 irr ∧ obs.humidity = round2 hum ∧
        obs.wind_speed = round2 wind ∧ obs.ambient_temperature = round2 temp ∧
        obs.tilt_angle = round2 tilt ∧ obs.kwh = round2 (f irr hum wind temp tilt) := by
  refine ⟨_, generate_ok hsel hfr hmd s k, ?_⟩
  intro obs hobs
  obtain ⟨m, j, rfl⟩ := mem_mkRows f season r s months k hobs
  exact ⟨uniform s j r.irradiance, uniform s (j + 1) r.humidity,
    uniform s (j + 2) r.wind_speed, uniform s (j + 3) r.ambient_temperature,
    uniform s (j + 4) r.tilt_angle, rfl, rfl, rfl, rfl, rfl, rfl⟩

/-- C1 witness: the amended theorem instantiated at summer with the constant
one-half draw stream. -/
theorem c1_witness :
    selectCalc "summer" = some calc_kwh_summer ∧
    feature_ranges.lookup "summer" = some summerRanges ∧
    season_months_days.lookup "summer" = some summerCal ∧
    ∃ rows, generate_seasonal_data "summer" feature_ranges season_months_days
        halfSampler 0 = .ok rows ∧
      ∀ obs ∈ rows, ∃ irr hum wind temp tilt : ℚ,
        obs.irradiance = round2 irr ∧ obs.humidity = round2 hum ∧
        obs.wind_speed = round2 wind ∧ obs.ambient_temperature = round2 temp ∧
        obs.tilt_angle = round2 tilt ∧
        obs.kwh = round2 (calc_kwh_summer irr hum wind temp tilt) :=
  ⟨rfl, rfl, rfl, @c1_thm "summer" calc_kwh_summer summerRanges summerCal
    feature_ranges season_months_days rfl rfl rfl halfSampler 0⟩

/-- C2 fails on the code: the kwh formula is applied to the raw sampled
values, not to the already-rounded stored values.  On `c2sampler` the emitted
kwh is 152.53, while rounding-before-scoring would give 152.54. -/
theorem c2_counterexample :
    generate_seasonal_data "summer" feature_ranges marchOnly c2sampler 0
      = .ok [c2row] ∧
    c2row.kwh ≠ round2 (calc_kwh_summer c2row.irradiance c2row.humidity
      c2row.wind_speed c2row.ambient_temperature c2row.tilt_angle) := by
  constructor
  · rw [@generate_single "summer" calc_kwh_summer summerRanges feature_ranges
      marchOnly "March" rfl rfl rfl c2sampler, c2row_eq]
  · unfold c2row calc_kwh_summer
    norm_num
    rw [round2_eval_tie_odd (30507/200) 15253 (by norm_num) (by norm_num)
      (by norm_num)]
    norm_num

/-- C2 amended: the kwh stored in row i is the season formula applied to the
five RAW uniform draws of that row (stream positions 5i..5i+4 from the start
of the season), rounded afterwards - scoring-before-rounding order. -/
theorem c2_thm {season : String} {f : CalcFn} {r : FeatureRanges}
    {months : List (String × Int)} {fr : List (String × FeatureRanges)}
    {md : List (String × List (String × Int))}
    (hsel : selectCalc season = some f) (hfr : fr.lookup season = some r)
    (hmd : md.lookup season = some months) (s : Sampler) (k : ℕ) :
    ∃ rows, generate_seasonal_data season fr md s k = .ok rows ∧
      ∀ i (h : i < rows.length), (rows.get ⟨i, h⟩).kwh
        = round2 (f (uniform s (k + 5 * i) r.irradiance)
            (uniform s (k + 5 * i + 1) r.humidity)
            (uniform s (k + 5 * i + 2) r.wind_speed)
            (uniform s (k + 5 * i + 3) r.ambient_temperature)
            (uniform s (k + 5 * i + 4) r.tilt_angle)) := by
  refine ⟨_, generate_ok hsel hfr hmd s k, ?_⟩
  intro i h
  rw [List.get_eq_getElem, mkRows_getElem f season r s months k i h]
  rfl

/-- C2 witness: the amended theorem instantiated at winter with the all-zero
draw stream. -/
theorem c2_witness :
    selectCalc "winter" = some calc_kwh_winter ∧
    feature_ranges.lookup "winter" = some winterRanges ∧
    season_months_days.lookup "winter" = some winterCal ∧
    ∃ rows, generate_seasonal_data "winter" feature_ranges season_months_days
        zeroSampler 0 = .ok rows ∧
      ∀ i (h : i < rows.length), (rows.get ⟨i, h⟩).kwh
        = round2 (calc_kwh_winter (uniform zeroSampler (0 + 5 * i) winterRanges.irradiance)
            (uniform zeroSampler (0 + 5 * i + 1) winterRanges.humidity)
            (uniform zeroSampler (0 + 5 * i + 2) winterRanges.wind_speed)
            (uniform zeroSampler (0 + 5 * i + 3) winterRanges.ambient_temperature)
            (uniform zeroSampler (0 + 5 * i + 4) winterRanges.tilt_angle)) :=
  ⟨rfl, rfl, rfl, @c2_thm "winter" calc_kwh_winter winterRanges winterCal
    feature_ranges season_months_days rfl rfl rfl zeroSampler 0⟩

/-- C3 fails on the code: with the summer irradiance range inverted to
(1000, 600), generate_seasonal_data raises no error and still emits an
observation (numpy's uniform performs no min ≤ max validation). -/
theorem c3_counterexample :
    generate_seasonal_data "summer" invertedFR marchOnly zeroSampler 0
      = .ok [c3row] := by
  rw [@generate_single "summer" calc_kwh_summer invertedRanges invertedFR
    marchOnly "March" rfl rfl rfl zeroSampler, c3row_eq]

/-- C3 amended: generate_seasonal_data performs no range validation; with an
inverted (min > max) irradiance range for summer it returns normally with the
full 122 observations instead of raising a configuration error. -/
theorem c3_thm (s : Sampler) (k : ℕ) :
    ∃ rows, generate_seasonal_data "summer" invertedFR season_months_days s k
        = .ok rows ∧ rows.length = 122 :=
  ⟨_, @generate_ok "summer" calc_kwh_summer invertedRanges summerCal invertedFR
    season_months_days rfl rfl rfl s k, by rw [mkRows_length]; rfl⟩

/-- C4 fails on the code: a negative calendar day count raises no error;
range(-5) is empty, so the month silently contributes zero observations. -/
theorem c4_counterexample :
    generate_seasonal_data "summer" feature_ranges
      [("summer", [("March", -5)])] zeroSampler 0 = .ok [] := by
  rw [@generate_ok "summer" calc_kwh_summer summerRanges [("March", -5)]
    feature_ranges [("summer", [("March", -5)])] rfl rfl rfl zeroSampler 0]
  rfl

/-- C4 amended: a calendar entry with a negative day count is silently treated
as zero iterations; the generator's result is exactly the result without that
entry, with no error raised. -/
theorem c4_thm (season : String) (f : CalcFn) (r : FeatureRanges) (m : String)
    (d : Int) (rest : List (String × Int)) (s : Sampler) (k : ℕ)
    (hd : d < 0) (hsel : selectCalc season = some f) :
    generate_seasonal_data season [(season, r)] [(season, (m, d) :: rest)] s k
      = generate_seasonal_data season [(season, r)] [(season, rest)] s k := by
  have hfr : ([(season, r)] : List (String × FeatureRanges)).lookup season
      = some r := by simp [List.lookup]
  have hmd1 : ([(season, (m, d) :: rest)] :
      List (String × List (String × Int))).lookup season
      = some ((m, d) :: rest) := by simp [List.lookup]
  have hmd2 : ([(season, rest)] : List (String × List (String × Int))).lookup season
      = some rest := by simp [List.lookup]
  rw [generate_ok hsel hfr hmd1, generate_ok hsel hfr hmd2]
  have h0 : d.toNat = 0 := Int.toNat_of_nonpos hd.le
  simp [mkRows, h0]

/-- C4 witness: the amended theorem at summer with day count -5 before a
2-day April. -/
theorem c4_witness :
    ((-5 : Int) < 0) ∧ selectCalc "summer" = some calc_kwh_summer ∧
    generate_seasonal_data "summer" [("summer", summerRanges)]
        [("summer", [("March", -5), ("April", 2)])] zeroSampler 0
      = generate_seasonal_data "summer" [("summer", summerRanges)]
        [("summer", [("April", 2)])] zeroSampler 0 :=
  ⟨by norm_num, rfl, c4_thm "summer" calc_kwh_summer summerRanges "March" (-5)
    [("April", 2)] zeroSampler 0 (by norm_num) rfl⟩

/-- C5: with non-negative day counts the generator returns exactly the sum of
the declared day counts, and row i is a pure function of that row's own five
draws (stream positions k+5i..k+5i+4): no cross-observation dependency. -/
theorem c5_thm {season : String} {f : CalcFn} {r : FeatureRanges}
    {months : List (String × Int)} {fr : List (String × FeatureRanges)}
    {md : List (String × List (String × Int))}
    (hsel : selectCalc season = some f) (hfr : fr.lookup season = some r)
    (hmd : md.lookup season = some months) (hd : ∀ p ∈ months, 0 ≤ p.2)
    (s : Sampler) (k : ℕ) :
    ∃ rows, generate_seasonal_data season fr md s k = .ok rows ∧
      (rows.length : ℤ) = (months.map (fun p => p.2)).sum ∧
      ∀ i (h : i < rows.length), rows.get ⟨i, h⟩
        = mkRow f season (rows.get ⟨i, h⟩).month r s (k + 5 * i) := by
  refine ⟨_, generate_ok hsel hfr hmd s k, ?_, ?_⟩
  · rw [mkRows_length]
    exact calendarLen_sum hd
  · intro i h
    rw [List.get_eq_getElem]
    exact mkRows_getElem f season r s months k i h

/-- C5 witness: the theorem instantiated at monsoon with the constant one-half
draw stream. -/
theorem c5_witness :
    selectCalc "monsoon" = some calc_kwh_monsoon ∧
    feature_ranges.lookup "monsoon" = some monsoonRanges ∧
    season_months_days.lookup "monsoon" = some monsoonCal ∧
    (∀ p ∈ monsoonCal, 0 ≤ p.2) ∧
    ∃ rows, generate_seasonal_data "monsoon" feature_ranges season_months_days
        halfSampler 0 = .ok rows ∧
      (rows.length : ℤ) = (monsoonCal.map (fun p => p.2)).sum ∧
      ∀ i (h : i < rows.length), rows.get ⟨i, h⟩
        = mkRow calc_kwh_monsoon "monsoon" (rows.get ⟨i, h⟩).month monsoonRanges
            halfSampler (0 + 5 * i) :=
  ⟨rfl, rfl, rfl, by decide, @c5_thm "monsoon" calc_kwh_monsoon monsoonRanges
    monsoonCal feature_ranges season_months_days rfl rfl rfl (by decide)
    halfSampler 0⟩

/-- C6: generate_all_seasons_data always succeeds and its combined table has
exactly 122 + 123 + 120 = 365 rows for the declared calendar tables. -/
theorem c6_thm (s : Sampler) :
    ∃ rows, generate_all_seasons_data s = .ok rows ∧ rows.length = 365 := by
  refine ⟨_, generate_all_eq s, ?_⟩
  rw [List.length_append, List.length_append, summer_len, monsoon_len, winter_len]

/-- C7: the combined table is the summer block, then the monsoon block, then
the winter block; within each season the month labels appear in the calendar
table's declared order with exactly the declared number of rows each. -/
theorem c7_thm (s : Sampler) :
    ∃ su mo wi : List Observation,
      generate_seasonal_data "summer" feature_ranges season_months_days s 0
        = .ok su ∧
      generate_seasonal_data "monsoon" feature_ranges season_months_days s
        (5 * su.length) = .ok mo ∧
      generate_seasonal_data "winter" feature_ranges season_months_days s
        (5 * (su.length + mo.length)) = .ok wi ∧
      generate_all_seasons_data s = .ok (su ++ mo ++ wi) ∧
      su.map (fun o => o.season) = List.replicate 122 "summer" ∧
      mo.map (fun o => o.season) = List.replicate 123 "monsoon" ∧
      wi.map (fun o => o.season) = List.replicate 120 "winter" ∧
      su.map (fun o => o.month) = List.replicate 31 "March"
        ++ List.replicate 30 "April" ++ List.replicate 31 "May"
        ++ List.replicate 30 "June" ∧
      mo.map (fun o => o.month) = List.replicate 31 "July"
        ++ List.replicate 31 "August" ++ List.replicate 30 "September"
        ++ List.replicate 31 "October" ∧
      wi.map (fun o => o.month) = List.replicate 30 "November"
        ++ List.replicate 31 "December" ++ List.replicate 31 "January"
        ++ List.replicate 28 "February" := by
  refine ⟨mkRows calc_kwh_summer "summer" summerRanges s 0 summerCal,
    mkRows calc_kwh_monsoon "monsoon" monsoonRanges s 610 monsoonCal,
    mkRows calc_kwh_winter "winter" winterRanges s 1225 winterCal,
    @generate_ok "summer" calc_kwh_summer summerRanges summerCal feature_ranges
      season_months_days rfl rfl rfl s 0, ?_, ?_, generate_all_eq s,
    ?_, ?_, ?_, ?_, ?_, ?_⟩
  · rw [summer_len]
    exact @generate_ok "monsoon" calc_kwh_monsoon monsoonRanges monsoonCal
      feature_ranges season_months_days rfl rfl rfl s 610
  · rw [summer_len, monsoon_len]
    exact @generate_ok "winter" calc_kwh_winter winterRanges winterCal
      feature_ranges season_months_days rfl rfl rfl s 1225
  · rw [mkRows_season_labels]
    rfl
  · rw [mkRows_season_labels]
    rfl
  · rw [mkRows_season_labels]
    rfl
  · rw [mkRows_month_labels]
    decide
  · rw [mkRows_month_labels]
    decide
  · rw [mkRows_month_labels]
    decide

/-- C8: for a unit draw stream and valid (min ≤ max) ranges, every emitted
observation's five stored feature values lie within the declared range up to
the ±0.01 tolerance introduced by rounding to 2 decimals. -/
theorem c8_thm {season : String} {f : CalcFn} {r : FeatureRanges}
    {months : List (String × Int)} {fr : List (String × FeatureRanges)}
    {md : List (String × List (String × Int))}
    (hs : UnitSampler s) (hr : ValidRanges r)
    (hsel : selectCalc season = some f) (hfr : fr.lookup season = some r)
    (hmd : md.lookup season = some months) (k : ℕ) :
    ∃ rows, generate_seasonal_data season fr md s k = .ok rows ∧
      ∀ obs ∈ rows,
        WithinTol r.irradiance obs.irradiance ∧
        WithinTol r.humidity obs.humidity ∧
        WithinTol r.wind_speed obs.wind_speed ∧
        WithinTol r.ambient_temperature obs.ambient_temperature ∧
        WithinTol r.tilt_angle obs.tilt_angle := by
  refine ⟨_, generate_ok hsel hfr hmd s k, ?_⟩
  intro obs hobs
  obtain ⟨m, j, rfl⟩ := mem_mkRows f season r s months k hobs
  exact mkRow_within hs hr f season m j

/-- C8 witness: the theorem instantiated at summer with the constant one-half
draw stream. -/
theorem c8_witness :
    UnitSampler halfSampler ∧ ValidRanges summerRanges ∧
    ∃ rows, generate_seasonal_data "summer" feature_ranges season_months_days
        halfSampler 0 = .ok rows ∧
      ∀ obs ∈ rows,
        WithinTol summerRanges.irradiance obs.irradiance ∧
        WithinTol summerRanges.humidity obs.humidity ∧
        WithinTol summerRanges.wind_speed obs.wind_speed ∧
        WithinTol summerRanges.ambient_temperature obs.ambient_temperature ∧
        WithinTol summerRanges.tilt_angle obs.tilt_angle := by
  have hs : UnitSampler halfSampler := by
    intro k
    constructor <;> norm_num [halfSampler]
  have hr : ValidRanges summerRanges := by
    refine ⟨?_, ?_, ?_, ?_, ?_⟩ <;> norm_num [summerRanges]
  exact ⟨hs, hr, @c8_thm halfSampler "summer" calc_kwh_summer summerRanges
    summerCal feature_ranges season_months_days hs hr rfl rfl rfl 0⟩

/-- C9: a calendar entry with day count 0 contributes no observations and no
error: the generator's output with the zero entry equals its output without
it, and the run still succeeds with the other months' row counts. -/
theorem c9_thm (season : String) (f : CalcFn) (r : FeatureRanges) (m : String)
    (pre post : List (String × Int)) (s : Sampler) (k : ℕ)
    (hsel : selectCalc season = some f) :
    generate_seasonal_data season [(season, r)]
        [(season, pre ++ [(m, 0)] ++ post)] s k
      = generate_seasonal_data season [(season, r)] [(season, pre ++ post)] s k ∧
    ∃ rows, generate_seasonal_data season [(season, r)]
        [(season, pre ++ [(m, 0)] ++ post)] s k = .ok rows ∧
      rows.length = calendarLen pre + calendarLen post := by
  have hfr : ([(season, r)] : List (String × FeatureRanges)).lookup season
      = some r := by simp [List.lookup]
  have hmd1 : ([(season, pre ++ [(m, 0)] ++ post)] :
      List (String × List (String × Int))).lookup season
      = some (pre ++ [(m, 0)] ++ post) := by simp [List.lookup]
  have hmd2 : ([(season, pre ++ post)] :
      List (String × List (String × Int))).lookup season
      = some (pre ++ post) := by simp [List.lookup]
  have key : mkRows f season r s k (pre ++ [(m, 0)] ++ post)
      = mkRows f season r s k (pre ++ post) := by
    rw [mkRows_append, mkRows_append, mkRows_append]
    simp [mkRows, calendarLen, calendarLen_append]
  constructor
  · rw [generate_ok hsel hfr hmd1 s k, generate_ok hsel hfr hmd2 s k, key]
  · refine ⟨_, generate_ok hsel hfr hmd1 s k, ?_⟩
    rw [mkRows_length, calendarLen_append, calendarLen_append]
    simp [calendarLen]

/-- C9 witness: the theorem at summer with a zero-day month between a 2-day
March and a 1-day April. -/
theorem c9_witness :
    selectCalc "summer" = some calc_kwh_summer ∧
    (generate_seasonal_data "summer" [("summer", summerRanges)]
        [("summer", [("March", 2)] ++ [("Empty", 0)] ++ [("April", 1)])]
        zeroSampler 0
      = generate_seasonal_data "summer" [("summer", summerRanges)]
        [("summer", [("March", 2)] ++ [("April", 1)])] zeroSampler 0 ∧
    ∃ rows, generate_seasonal_data "summer" [("summer", summerRanges)]
        [("summer", [("March", 2)] ++ [("Empty", 0)] ++ [("April", 1)])]
        zeroSampler 0 = .ok rows ∧
      rows.length = calendarLen [("March", 2)] + calendarLen [("April", 1)]) :=
  ⟨rfl, c9_thm "summer" calc_kwh_summer summerRanges "Empty"
    [("March", 2)] [("April", 1)] zeroSampler 0 rfl⟩

/-- C10: the if/elif chain is exhaustive on the three season names (a scoring
function is always selected, so the unassigned-calc_func branch is
unreachable for them and generation succeeds), while any other season name
fails immediately with a KeyError from the ranges lookup, emitting nothing. -/
theorem c10_thm (s : Sampler) (k : ℕ) :
    ((selectCalc "summer").isSome = true ∧ (selectCalc "monsoon").isSome = true ∧
      (selectCalc "winter").isSome = true ∧
      ∀ season : String,
        season = "summer" ∨ season = "monsoon" ∨ season = "winter" →
        ∃ rows, generate_seasonal_data season feature_ranges season_months_days s k
          = .ok rows) ∧
    ∀ season : String, season ≠ "summer" → season ≠ "monsoon" → season ≠ "winter" →
      generate_seasonal_data season feature_ranges season_months_days s k
        = .error (.keyError season) := by
  constructor
  · refine ⟨rfl, rfl, rfl, ?_⟩
    intro season hs
    rcases hs with rfl | rfl | rfl
    · exact ⟨_, @generate_ok "summer" calc_kwh_summer summerRanges summerCal
        feature_ranges season_months_days rfl rfl rfl s k⟩
    · exact ⟨_, @generate_ok "monsoon" calc_kwh_monsoon monsoonRanges monsoonCal
        feature_ranges season_months_days rfl rfl rfl s k⟩
    · exact ⟨_, @generate_ok "winter" calc_kwh_winter winterRanges winterCal
        feature_ranges season_months_days rfl rfl rfl s k⟩
  · intro season h1 h2 h3
    have e1 : (season == "summer") = false := beq_eq_false_iff_ne.mpr h1
    have e2 : (season == "monsoon") = false := beq_eq_false_iff_ne.mpr h2
    have e3 : (season == "winter") = false := beq_eq_false_iff_ne.mpr h3
    simp [generate_seasonal_data, feature_ranges, List.lookup, e1, e2, e3]

/-- C10 witness: the chain selects a function for summer, and the unknown
season name spring yields the KeyError with no observations. -/
theorem c10_witness :
    (selectCalc "summer").isSome = true ∧
    generate_seasonal_data "spring" feature_ranges season_months_days
        zeroSampler 0 = .error (.keyError "spring") :=
  ⟨(c10_thm zeroSampler 0).1.1,
    (c10_thm zeroSampler 0).2 "spring" (by decide) (by decide) (by decide)⟩

end Solar
